import Mathlib

/-!
Shallow embedding of the N-body black-hole physics core
(`src/physics/Physics.cpp`, `src/physics/BlackHole.cpp`,
`src/objects/Object.cpp` and their headers), with machine `float`/`double`
arithmetic modelled by exact reals.  Rendering-only attributes (color) and
logging calls are omitted; where a C++ member returns `void` but reports an
outcome through the logger, the embedding returns the outcome explicitly.
-/

open Classical

/- ### Integration method enumeration and config parsing (Physics.h / Physics.cpp ctor) -/

/-- `Physics::IntegrationMethod` from Physics.h. -/
inductive IntegrationMethod
  | EULER
  | LEAPFROG
  | RK4
deriving DecidableEq, Repr

/-- The integration-method parsing performed in the `Physics::Physics`
constructor (Physics.cpp lines 34-42): exact string comparison against
"euler" and "leapfrog", everything else selects RK4. -/
def parseIntegrationMethod (methodStr : String) : IntegrationMethod :=
  if methodStr = "euler" then IntegrationMethod.EULER
  else if methodStr = "leapfrog" then IntegrationMethod.LEAPFROG
  else IntegrationMethod.RK4

/-- ASCII lower-casing of one character (`A`-`Z` map to `a`-`z`). -/
def lowerAsciiChar (ch : Char) : Char :=
  if 65 ≤ ch.toNat ∧ ch.toNat ≤ 90 then Char.ofNat (ch.toNat + 32) else ch

/-- ASCII lower-casing of a string. -/
def lowerAscii (s : String) : String :=
  String.mk (s.data.map lowerAsciiChar)

/-- The integration-method selector as the specification describes it
(spec section 6): the three names "first-order" / "leapfrog" /
"fourth-order", matched case-insensitively, unrecognized values defaulting
to fourth-order.  Stated only to compare against `parseIntegrationMethod`,
which is the code's behaviour. -/
def specIntegrationMethodSelector (s : String) : IntegrationMethod :=
  let l := lowerAscii s
  if l = "first-order" then IntegrationMethod.EULER
  else if l = "leapfrog" then IntegrationMethod.LEAPFROG
  else if l = "fourth-order" then IntegrationMethod.RK4
  else IntegrationMethod.RK4

noncomputable section

/- ### 3-component vectors (glm::vec3 over exact reals) -/

/-- A 3-component vector, modelling `glm::vec3` with exact real
components. -/
@[ext]
structure Vec3 where
  x : ℝ
  y : ℝ
  z : ℝ

instance : Zero Vec3 := ⟨⟨0, 0, 0⟩⟩

instance : Add Vec3 := ⟨fun a b => ⟨a.x + b.x, a.y + b.y, a.z + b.z⟩⟩

instance : Sub Vec3 := ⟨fun a b => ⟨a.x - b.x, a.y - b.y, a.z - b.z⟩⟩

instance : Neg Vec3 := ⟨fun a => ⟨-a.x, -a.y, -a.z⟩⟩

instance : SMul ℝ Vec3 := ⟨fun c v => ⟨c * v.x, c * v.y, c * v.z⟩⟩

/-- `glm::length`: the Euclidean norm. -/
def Vec3.length (v : Vec3) : ℝ := Real.sqrt (v.x ^ 2 + v.y ^ 2 + v.z ^ 2)

/-- `glm::normalize`: the vector divided by its length. -/
def Vec3.normalize (v : Vec3) : Vec3 := (1 / v.length) • v

/- ### Object (Object.h / Object.cpp) -/

/-- `Object::Type` from Object.h. -/
inductive ObjectType
  | STAR
  | PLANET
  | ASTEROID
  | GAS_CLOUD
  | DEBRIS
  | TEST_MASS
deriving DecidableEq, Repr

/-- A celestial object (`Object`), with its kinematic state, classification
and activity flag as in Object.h.  The render color is omitted (never read
by the physics core). -/
structure Object where
  position : Vec3
  velocity : Vec3
  acceleration : Vec3
  mass : ℝ
  radius : ℝ
  name : String
  objType : ObjectType
  active : Bool
  forceSum : Vec3
  positionHistory : List Vec3

/-- `m_maxHistorySize`, fixed at 100 in the Object constructor. -/
def Object.maxHistorySize : Nat := 100

/-- `Object::applyForce`: forces accumulate additively. -/
def Object.applyForce (o : Object) (force : Vec3) : Object :=
  { o with forceSum := o.forceSum + force }

/-- `Object::resetForces`. -/
def Object.resetForces (o : Object) : Object :=
  { o with forceSum := 0 }

/-- `Object::setActive`. -/
def Object.setActive (o : Object) (b : Bool) : Object :=
  { o with active := b }

/-- `Object::setVelocity`. -/
def Object.setVelocity (o : Object) (v : Vec3) : Object :=
  { o with velocity := v }

/-- `Object::getDistanceTo`. -/
def Object.getDistanceTo (o other : Object) : ℝ :=
  Vec3.length (other.position - o.position)

/-- `Object::isCollidingWith`: both bodies active and distance at most the
sum of the radii. -/
def Object.isCollidingWith (o other : Object) : Prop :=
  o.active = true ∧ other.active = true ∧
    o.getDistanceTo other ≤ o.radius + other.radius

/-- `Object::updateHistory`: push the position, evict the oldest entry once
the cap is exceeded. -/
def Object.updateHistory (o : Object) : Object :=
  let h := o.positionHistory ++ [o.position]
  { o with positionHistory :=
      if Object.maxHistorySize < h.length then h.drop 1 else h }

/-- `Object::updatePhysics`: guard on inactivity / non-positive dt, then
acceleration from accumulated force (zero for massless objects), explicit
velocity-then-position update, history push, and force reset. -/
def Object.updatePhysics (o : Object) (deltaTime : ℝ) : Object :=
  if o.active = false ∨ deltaTime ≤ 0 then o
  else
    let a : Vec3 := if 0 < o.mass then (1 / o.mass) • o.forceSum else 0
    let v : Vec3 := o.velocity + deltaTime • a
    let p : Vec3 := o.position + deltaTime • v
    (Object.updateHistory
      { o with acceleration := a, velocity := v, position := p }).resetForces

/- ### BlackHole (BlackHole.h / BlackHole.cpp) -/

/-- The central massive body (`BlackHole`). -/
structure BlackHole where
  position : Vec3
  mass : ℝ
  schwarzschildRadius : ℝ
  name : String

/-- Gravitational constant, `BlackHole::G` (BlackHole.h). -/
def BlackHole.G : ℝ := 6.67430e-11

/-- Speed of light, `BlackHole::c` (BlackHole.h). -/
def BlackHole.c : ℝ := 299792458.0

/-- `BlackHole::updateSchwarzschildRadius`: `Rs = 2 G m / c^2`. -/
def BlackHole.updateSchwarzschildRadius (bh : BlackHole) : BlackHole :=
  { bh with schwarzschildRadius :=
      2 * BlackHole.G * bh.mass / (BlackHole.c * BlackHole.c) }

/-- The `BlackHole` constructor: stores position, mass and name and derives
the Schwarzschild radius. -/
def mkBlackHole (position : Vec3) (mass : ℝ) (name : String) : BlackHole :=
  BlackHole.updateSchwarzschildRadius
    { position := position, mass := mass, schwarzschildRadius := 0, name := name }

/-- `BlackHole::setMass`: mutates the mass and recomputes the radius. -/
def BlackHole.setMass (bh : BlackHole) (mass : ℝ) : BlackHole :=
  BlackHole.updateSchwarzschildRadius { bh with mass := mass }

/-- `BlackHole::isInsideEventHorizon`: distance at most the Schwarzschild
radius. -/
def BlackHole.isInsideEventHorizon (bh : BlackHole) (point : Vec3) : Prop :=
  Vec3.length (point - bh.position) ≤ bh.schwarzschildRadius

/-- `BlackHole::getGravitationalAcceleration`: zero inside one tenth of the
Schwarzschild radius, Newtonian `G m / r^2` toward the center otherwise. -/
def BlackHole.getGravitationalAcceleration (bh : BlackHole) (point : Vec3) : Vec3 :=
  let rvec := point - bh.position
  let r := rvec.length
  if r < bh.schwarzschildRadius * 0.1 then 0
  else (BlackHole.G * bh.mass / (r * r)) • (-(Vec3.normalize rvec))

/-- `BlackHole::getMetricCoefficient`: `1 - Rs/r` outside the horizon, zero
at or inside it. -/
def BlackHole.getMetricCoefficient (bh : BlackHole) (radius : ℝ) : ℝ :=
  if radius ≤ bh.schwarzschildRadius then 0
  else 1 - bh.schwarzschildRadius / radius

/-- `BlackHole::getTimeDilationFactor`: square root of the metric
coefficient, zero when the coefficient is non-positive. -/
def BlackHole.getTimeDilationFactor (bh : BlackHole) (radius : ℝ) : ℝ :=
  let g_tt := bh.getMetricCoefficient radius
  if g_tt ≤ 0 then 0 else Real.sqrt g_tt

/- ### The Physics simulation state (Physics.h / Physics.cpp) -/

/-- The `Physics` simulation state: black hole, ordered object collection,
gravity flag, integration method, configured time step, gravitational
constant, diagnostic counters. -/
structure Physics where
  blackHole : BlackHole
  objects : List Object
  gravityEnabled : Bool
  integrationMethod : IntegrationMethod
  timeStep : ℝ
  G : ℝ
  simulationTime : ℝ
  stepCount : Nat

/-- The per-pair Newtonian force computed inside
`Physics::calculateGravitationalForces`: `G m1 m2 / r^2` along the unit
separation vector from `o1` to `o2`, zero at zero separation. -/
def pairForce (G : ℝ) (o1 o2 : Object) : Vec3 :=
  let displacement := o2.position - o1.position
  let distance := displacement.length
  if 0 < distance then
    (G * o1.mass * o2.mass / (distance * distance)) • Vec3.normalize displacement
  else 0

/-- One iteration of the doubly nested loop of
`Physics::calculateGravitationalForces` at pair `(i, j)`: when both bodies
are active and the separation is positive, apply the pair force to `o1`
and its negation to `o2`; otherwise leave the collection unchanged.
(The C++ loop hoists the activity tests to `continue` statements; since
force accumulation changes neither positions nor activity flags, checking
per pair is the same computation.) -/
def forcePairStep (G : ℝ) (objs : List Object) (i j : Nat) : List Object :=
  match objs[i]?, objs[j]? with
  | some o1, some o2 =>
      if o1.active = true ∧ o2.active = true ∧
          0 < (o2.position - o1.position).length then
        (objs.set i (o1.applyForce (pairForce G o1 o2))).set j
          (o2.applyForce (-(pairForce G o1 o2)))
      else objs
  | _, _ => objs

/-- One iteration of the doubly nested loop of `Physics::handleCollisions`
at pair `(i, j)`: on collision, the heavier body absorbs the lighter one
(ties go to `o1`, the first body of the pair); only the activity flag of
the absorbed body changes. -/
def resolveCollision (objs : List Object) (i j : Nat) : List Object :=
  match objs[i]?, objs[j]? with
  | some o1, some o2 =>
      if o1.isCollidingWith o2 then
        if o2.mass ≤ o1.mass then objs.set j (o2.setActive false)
        else objs.set i (o1.setActive false)
      else objs
  | _, _ => objs

/-- The inner loop `for j in i+1 .. size-1` shared by the two pairwise
passes, with an explicit fuel bound (the loops never grow the list, so a
fuel of the initial length covers the whole range). -/
def pairLoopInner (step : List Object → Nat → Nat → List Object) (i : Nat) :
    List Object → Nat → Nat → List Object
  | objs, _, 0 => objs
  | objs, j, Nat.succ fuel =>
      if j < objs.length then pairLoopInner step i (step objs i j) (j + 1) fuel
      else objs

/-- The outer loop `for i in 0 .. size-1` shared by the two pairwise
passes. -/
def pairLoopOuter (step : List Object → Nat → Nat → List Object) :
    List Object → Nat → Nat → List Object
  | objs, _, 0 => objs
  | objs, i, Nat.succ fuel =>
      if i < objs.length then
        pairLoopOuter step (pairLoopInner step i objs (i + 1) objs.length) (i + 1) fuel
      else objs

/-- `Physics::calculateGravitationalForces`: the pairwise Newtonian force
accumulation pass. -/
def Physics.calculateGravitationalForces (p : Physics) : Physics :=
  { p with objects := pairLoopOuter (forcePairStep p.G) p.objects 0 p.objects.length }

/-- `Physics::applyBlackHoleGravity`: inverse-square central force on every
active body, suppressed entirely within one tenth of the Schwarzschild
radius. -/
def Physics.applyBlackHoleGravity (p : Physics) : Physics :=
  { p with objects := p.objects.map (fun o =>
      if o.active = true then
        let displacement := p.blackHole.position - o.position
        let distance := displacement.length
        if p.blackHole.schwarzschildRadius * 0.1 < distance then
          o.applyForce
            ((p.G * p.blackHole.mass * o.mass / (distance * distance)) •
              Vec3.normalize displacement)
        else o
      else o) }

/-- `Physics::integrateEuler`: the explicit first-order update is performed
by `Object::updatePhysics`, so this pass changes nothing. -/
def Physics.integrateEuler (p : Physics) (_deltaTime : ℝ) : Physics := p

/-- `Physics::integrateLeapfrog`: documented placeholder falling back to
Euler. -/
def Physics.integrateLeapfrog (p : Physics) (deltaTime : ℝ) : Physics :=
  p.integrateEuler deltaTime

/-- `Physics::integrateRK4`: documented placeholder falling back to
Euler. -/
def Physics.integrateRK4 (p : Physics) (deltaTime : ℝ) : Physics :=
  p.integrateEuler deltaTime

/-- `Physics::integrateMotion`: dispatch on the selected method. -/
def Physics.integrateMotion (p : Physics) (deltaTime : ℝ) : Physics :=
  match p.integrationMethod with
  | IntegrationMethod.EULER => p.integrateEuler deltaTime
  | IntegrationMethod.LEAPFROG => p.integrateLeapfrog deltaTime
  | IntegrationMethod.RK4 => p.integrateRK4 deltaTime

/-- `Physics::handleCollisions`: the pairwise collision-resolution pass. -/
def Physics.handleCollisions (p : Physics) : Physics :=
  { p with objects := pairLoopOuter resolveCollision p.objects 0 p.objects.length }

/-- The erase-while-iterating loop of `Physics::removeSwallowedObjects`:
active bodies inside the event horizon are erased, inactive bodies are
erased, everything else is kept in order. -/
def removeSwallowedLoop (bh : BlackHole) : List Object → List Object
  | [] => []
  | o :: rest =>
      if o.active = true ∧ bh.isInsideEventHorizon o.position then
        removeSwallowedLoop bh rest
      else if o.active = false then removeSwallowedLoop bh rest
      else o :: removeSwallowedLoop bh rest

/-- `Physics::removeSwallowedObjects`. -/
def Physics.removeSwallowedObjects (p : Physics) : Physics :=
  { p with objects := removeSwallowedLoop p.blackHole p.objects }

/-- The first four calls of the gravity-enabled branch of
`Physics::update`: force accumulation, central-body gravity, integration
dispatch, collision resolution. -/
def Physics.gravityPass (p : Physics) (deltaTime : ℝ) : Physics :=
  (((p.calculateGravitationalForces).applyBlackHoleGravity).integrateMotion
      deltaTime).handleCollisions

/-- `Physics::update`: guard on non-positive dt; advance the diagnostic
counters; when gravity is enabled run force accumulation, central-body
gravity, integration dispatch, collision resolution and horizon removal;
finally advance every object. -/
def Physics.update (p : Physics) (deltaTime : ℝ) : Physics :=
  if deltaTime ≤ 0 then p
  else
    let p1 := { p with simulationTime := p.simulationTime + deltaTime,
                       stepCount := p.stepCount + 1 }
    let p2 :=
      if p1.gravityEnabled = true then
        (p1.gravityPass deltaTime).removeSwallowedObjects
      else p1
    { p2 with objects := p2.objects.map (fun o => o.updatePhysics deltaTime) }

/-- The observable outcome of `Physics::addObject`: the rejection path logs
a WARNING (a recoverable condition) and returns normally; the success path
logs INFO.  The C++ member returns `void`, so the outcome is modelled
explicitly. -/
inductive AddOutcome
  | added
  | rejectedCapacity
deriving DecidableEq, Repr

/-- `Physics::addObject`: reject (without modifying state) once the
collection holds 16 entries, append otherwise. -/
def Physics.addObject (p : Physics) (object : Object) : Physics × AddOutcome :=
  if 16 ≤ p.objects.length then (p, AddOutcome.rejectedCapacity)
  else ({ p with objects := p.objects ++ [object] }, AddOutcome.added)

/-- `Physics::resetSimulation`: zero the counters, zero every object's
velocity and clear its accumulated force. -/
def Physics.resetSimulation (p : Physics) : Physics :=
  { p with simulationTime := 0, stepCount := 0,
           objects := p.objects.map (fun o => (o.setVelocity 0).resetForces) }

/-- The kinematic projection of an object (position, velocity, mass), used
to state what collision resolution leaves unchanged. -/
def Object.kinematicState (o : Object) : Vec3 × Vec3 × ℝ :=
  (o.position, o.velocity, o.mass)

/-- An externally driven interaction with a single object: a force
application or one simulation step of a given time delta. -/
inductive BodyOp
  | applyF (force : Vec3)
  | step (deltaTime : ℝ)

/-- Run a sequence of interactions against one object. -/
def runBodyOps : List BodyOp → Object → Object
  | [], o => o
  | BodyOp.applyF f :: ops, o => runBodyOps ops (o.applyForce f)
  | BodyOp.step dt :: ops, o => runBodyOps ops (o.updatePhysics dt)

/- ### Concrete sample states, used to instantiate the theorems -/

/-- A sample active body of unit mass sitting at the origin. -/
def sampleBody : Object :=
  { position := 0, velocity := 0, acceleration := 0, mass := 1, radius := 1,
    name := "A", objType := ObjectType.STAR, active := true, forceSum := 0,
    positionHistory := [0] }

/-- A second sample body, one meter along the x axis. -/
def sampleBody2 : Object :=
  { sampleBody with position := ⟨1, 0, 0⟩, name := "B" }

/-- A heavier sample body at the origin. -/
def sampleHeavy : Object :=
  { sampleBody with mass := 2, name := "C" }

/-- A massless sample body (a tracer). -/
def sampleTracer : Object :=
  { sampleBody with mass := 0, name := "T", objType := ObjectType.TEST_MASS }

/-- A sample black hole of unit mass at the origin. -/
def sampleBlackHole : BlackHole := mkBlackHole 0 1 "Sample"

/-- A sample simulation state with gravity disabled and one body sitting at
the black hole's own position (hence inside the event horizon). -/
def sampleSim : Physics :=
  { blackHole := sampleBlackHole, objects := [sampleBody],
    gravityEnabled := false, integrationMethod := IntegrationMethod.RK4,
    timeStep := 1 / 60, G := BlackHole.G, simulationTime := 0, stepCount := 0 }

/-- A sample simulation state already holding 16 bodies. -/
def sampleSim16 : Physics :=
  { sampleSim with objects := List.replicate 16 sampleBody }

end

/- ### Component and algebra lemmas for Vec3 -/

@[simp] theorem Vec3.zero_x : (0 : Vec3).x = 0 := rfl

@[simp] theorem Vec3.zero_y : (0 : Vec3).y = 0 := rfl

@[simp] theorem Vec3.zero_z : (0 : Vec3).z = 0 := rfl

@[simp] theorem Vec3.add_x (a b : Vec3) : (a + b).x = a.x + b.x := rfl

@[simp] theorem Vec3.add_y (a b : Vec3) : (a + b).y = a.y + b.y := rfl

@[simp] theorem Vec3.add_z (a b : Vec3) : (a + b).z = a.z + b.z := rfl

@[simp] theorem Vec3.sub_x (a b : Vec3) : (a - b).x = a.x - b.x := rfl

@[simp] theorem Vec3.sub_y (a b : Vec3) : (a - b).y = a.y - b.y := rfl

@[simp] theorem Vec3.sub_z (a b : Vec3) : (a - b).z = a.z - b.z := rfl

@[simp] theorem Vec3.neg_x (a : Vec3) : (-a).x = -a.x := rfl

@[simp] theorem Vec3.neg_y (a : Vec3) : (-a).y = -a.y := rfl

@[simp] theorem Vec3.neg_z (a : Vec3) : (-a).z = -a.z := rfl

@[simp] theorem Vec3.smul_x (c : ℝ) (a : Vec3) : (c • a).x = c * a.x := rfl

@[simp] theorem Vec3.smul_y (c : ℝ) (a : Vec3) : (c • a).y = c * a.y := rfl

@[simp] theorem Vec3.smul_z (c : ℝ) (a : Vec3) : (c • a).z = c * a.z := rfl

@[simp] theorem Vec3.smul_zero (c : ℝ) : c • (0 : Vec3) = 0 := by
  ext <;> simp

@[simp] theorem Vec3.add_zero (v : Vec3) : v + 0 = v := by
  ext <;> simp

@[simp] theorem Vec3.zero_add (v : Vec3) : (0 : Vec3) + v = v := by
  ext <;> simp

@[simp] theorem Vec3.sub_self (v : Vec3) : v - v = 0 := by
  ext <;> simp

@[simp] theorem Vec3.neg_zero : -(0 : Vec3) = 0 := by
  ext <;> simp

theorem Vec3.length_nonneg (v : Vec3) : 0 ≤ v.length :=
  Real.sqrt_nonneg _

@[simp] theorem Vec3.length_zero : (0 : Vec3).length = 0 := by
  simp [Vec3.length]

theorem Vec3.length_neg (v : Vec3) : (-v).length = v.length := by
  unfold Vec3.length
  congr 1
  simp

theorem Vec3.length_smul (c : ℝ) (v : Vec3) : (c • v).length = |c| * v.length := by
  unfold Vec3.length
  have h : (c • v).x ^ 2 + (c • v).y ^ 2 + (c • v).z ^ 2
      = c ^ 2 * (v.x ^ 2 + v.y ^ 2 + v.z ^ 2) := by
    simp
    ring
  rw [h, Real.sqrt_mul (sq_nonneg c), Real.sqrt_sq_eq_abs]

theorem Vec3.smul_neg (c : ℝ) (v : Vec3) : c • (-v) = -(c • v) := by
  ext <;> simp

theorem Vec3.neg_sub' (a b : Vec3) : -(a - b) = b - a := by
  ext <;> simp

theorem Vec3.normalize_neg (v : Vec3) : (-v).normalize = -v.normalize := by
  unfold Vec3.normalize
  rw [Vec3.length_neg, Vec3.smul_neg]

/- ### C2: integration-method selection -/

/-- C2 counterexample: the constructor's selector does not match the
spec-described names and is not case-insensitive — "first-order" and the
upper-case variants of the recognized names all fall through to RK4,
while the selector the spec describes maps them to first-order and
leapfrog respectively. -/
theorem integration_selector_not_spec_names :
    parseIntegrationMethod "first-order" = IntegrationMethod.RK4 ∧
    parseIntegrationMethod "EULER" = IntegrationMethod.RK4 ∧
    parseIntegrationMethod "LEAPFROG" = IntegrationMethod.RK4 ∧
    specIntegrationMethodSelector "first-order" = IntegrationMethod.EULER ∧
    specIntegrationMethodSelector "LEAPFROG" = IntegrationMethod.LEAPFROG := by
  decide

/-- C2 (amended): at construction the integration-method selector string is
matched case-sensitively against the two names "euler" and "leapfrog";
"euler" selects the first-order method, "leapfrog" selects leapfrog, and
any other value selects the fourth-order method. -/
theorem integration_selector_case_sensitive :
    parseIntegrationMethod "euler" = IntegrationMethod.EULER ∧
    parseIntegrationMethod "leapfrog" = IntegrationMethod.LEAPFROG ∧
    ∀ s : String, s ≠ "euler" → s ≠ "leapfrog" →
      parseIntegrationMethod s = IntegrationMethod.RK4 := by
  refine ⟨rfl, rfl, ?_⟩
  intro s h1 h2
  unfold parseIntegrationMethod
  rw [if_neg h1, if_neg h2]

/-- C2 witness: the default configuration value "rk4" is unrecognized and
selects the fourth-order method. -/
theorem integration_selector_case_sensitive_witness :
    parseIntegrationMethod "rk4" = IntegrationMethod.RK4 :=
  integration_selector_case_sensitive.2.2 "rk4" (by decide) (by decide)

/- ### C5: capacity rejection -/

/-- C5: adding a body when the collection already holds 16 entries is
rejected without modifying any state; the collection stays at 16 entries
and the outcome is the recoverable `rejectedCapacity` report. -/
theorem addObject_rejects_at_capacity (p : Physics) (o : Object)
    (h : p.objects.length = 16) :
    p.addObject o = (p, AddOutcome.rejectedCapacity) ∧
    (p.addObject o).1.objects.length = 16 := by
  have h16 : 16 ≤ p.objects.length := by omega
  have he : p.addObject o = (p, AddOutcome.rejectedCapacity) := by
    unfold Physics.addObject
    rw [if_pos h16]
  exact ⟨he, by rw [he]; exact h⟩

/-- C5 witness: a concrete simulation holding 16 bodies rejects a 17th. -/
theorem addObject_rejects_at_capacity_witness :
    sampleSim16.addObject sampleBody2 = (sampleSim16, AddOutcome.rejectedCapacity) :=
  (addObject_rejects_at_capacity sampleSim16 sampleBody2 (by
    simp [sampleSim16])).1

/- ### C6: non-positive time deltas are no-ops -/

/-- C6: for every time delta at most zero, the simulation step returns
immediately and leaves the whole state (bodies, black hole, counters)
unchanged. -/
theorem update_nonpositive_dt_noop (p : Physics) (deltaTime : ℝ)
    (h : deltaTime ≤ 0) : p.update deltaTime = p := by
  unfold Physics.update
  rw [if_pos h]

/-- C6 witness: a zero time delta leaves the sample state unchanged. -/
theorem update_nonpositive_dt_noop_witness :
    sampleSim.update 0 = sampleSim :=
  update_nonpositive_dt_noop sampleSim 0 (by norm_num)

/- ### C7: massless bodies never change velocity -/

theorem Object.applyForce_mass (o : Object) (f : Vec3) :
    (o.applyForce f).mass = o.mass := rfl

theorem Object.applyForce_velocity (o : Object) (f : Vec3) :
    (o.applyForce f).velocity = o.velocity := rfl

theorem Object.updatePhysics_mass (o : Object) (deltaTime : ℝ) :
    (o.updatePhysics deltaTime).mass = o.mass := by
  unfold Object.updatePhysics
  split <;> rfl

theorem Object.updatePhysics_velocity_massless (o : Object) (deltaTime : ℝ)
    (h : o.mass = 0) : (o.updatePhysics deltaTime).velocity = o.velocity := by
  unfold Object.updatePhysics
  split
  · rfl
  · show o.velocity + deltaTime •
        (if 0 < o.mass then (1 / o.mass) • o.forceSum else 0) = o.velocity
    rw [h, if_neg (lt_irrefl 0), Vec3.smul_zero, Vec3.add_zero]

/-- C7: a body of zero mass never changes velocity under any sequence of
applied forces and simulation steps: its acceleration is set to zero
instead of force/mass. -/
theorem massless_velocity_invariant (ops : List BodyOp) (o : Object)
    (h : o.mass = 0) : (runBodyOps ops o).velocity = o.velocity := by
  induction ops generalizing o with
  | nil => rfl
  | cons op rest ih =>
      cases op with
      | applyF f =>
          rw [runBodyOps, ih (o.applyForce f) (by rw [Object.applyForce_mass, h]),
            Object.applyForce_velocity]
      | step dt =>
          rw [runBodyOps, ih (o.updatePhysics dt) (by rw [Object.updatePhysics_mass, h]),
            Object.updatePhysics_velocity_massless o dt h]

/-- C7 witness: the massless tracer keeps its velocity across a force
application and a step. -/
theorem massless_velocity_invariant_witness :
    (runBodyOps [BodyOp.applyF ⟨5, 0, 0⟩, BodyOp.step 1] sampleTracer).velocity
      = sampleTracer.velocity :=
  massless_velocity_invariant [BodyOp.applyF ⟨5, 0, 0⟩, BodyOp.step 1]
    sampleTracer rfl

/- ### C10: reset semantics -/

/-- C10: resetting the simulation zeroes every body's velocity, clears its
accumulated force, and zeroes the elapsed-time and step-count counters,
while leaving each body's other fields (position, mass, radius, activity
flag, history), the collection's membership and order, and the black hole
unchanged — positions are not restored to their initial values. -/
theorem resetSimulation_effects (p : Physics) :
    p.resetSimulation.simulationTime = 0 ∧
    p.resetSimulation.stepCount = 0 ∧
    p.resetSimulation.blackHole = p.blackHole ∧
    p.resetSimulation.gravityEnabled = p.gravityEnabled ∧
    p.resetSimulation.integrationMethod = p.integrationMethod ∧
    p.resetSimulation.objects.length = p.objects.length ∧
    ∀ k : Nat, p.resetSimulation.objects[k]? =
      (p.objects[k]?).map (fun o => { o with velocity := 0, forceSum := 0 }) := by
  refine ⟨rfl, rfl, rfl, rfl, rfl, ?_, ?_⟩
  · simp [Physics.resetSimulation]
  · intro k
    simp only [Physics.resetSimulation, List.getElem?_map]
    cases p.objects[k]? with
    | none => rfl
    | some o => rfl

/- ### Preservation lemmas for the pairwise loops -/

theorem getElem?_set_map {α β : Type} (f : α → β) (l : List α) (i : Nat) (a : α)
    (h : ∀ x, l[i]? = some x → f a = f x) (k : Nat) :
    ((l.set i a)[k]?).map f = (l[k]?).map f := by
  rcases eq_or_ne i k with rfl | hne
  · by_cases hi : i < l.length
    · have hx : l[i]? = some l[i] := List.getElem?_eq_getElem hi
      rw [List.getElem?_set_self hi, hx]
      simp [h _ hx]
    · have e1 : (l.set i a)[i]? = none := List.getElem?_eq_none (by
        rw [List.length_set]; omega)
      have e2 : l[i]? = none := List.getElem?_eq_none (by omega)
      rw [e1, e2]
  · rw [List.getElem?_set_ne hne]

theorem Object.kinematicState_setActive (o : Object) (b : Bool) :
    (o.setActive b).kinematicState = o.kinematicState := rfl

theorem resolveCollision_kinematic (objs : List Object) (i j k : Nat) :
    ((resolveCollision objs i j)[k]?).map Object.kinematicState =
      (objs[k]?).map Object.kinematicState := by
  cases h1 : objs[i]? with
  | none => simp [resolveCollision, h1]
  | some o1 =>
      cases h2 : objs[j]? with
      | none => simp [resolveCollision, h1, h2]
      | some o2 =>
          simp only [resolveCollision, h1, h2]
          split_ifs with hc hm
          · refine getElem?_set_map _ _ _ _ ?_ k
            intro x hx
            rw [h2] at hx
            cases hx
            rfl
          · refine getElem?_set_map _ _ _ _ ?_ k
            intro x hx
            rw [h1] at hx
            cases hx
            rfl
          · rfl

theorem pairLoopInner_map {β : Type} (f : Object → β)
    (step : List Object → Nat → Nat → List Object)
    (hstep : ∀ (objs : List Object) (i j k : Nat),
      ((step objs i j)[k]?).map f = (objs[k]?).map f)
    (i : Nat) (fuel : Nat) :
    ∀ (objs : List Object) (j k : Nat),
      ((pairLoopInner step i objs j fuel)[k]?).map f = (objs[k]?).map f := by
  induction fuel with
  | zero => intro objs j k; rfl
  | succ n ih =>
      intro objs j k
      unfold pairLoopInner
      by_cases hj : j < objs.length
      · rw [if_pos hj, ih, hstep]
      · rw [if_neg hj]

theorem pairLoopOuter_map {β : Type} (f : Object → β)
    (step : List Object → Nat → Nat → List Object)
    (hstep : ∀ (objs : List Object) (i j k : Nat),
      ((step objs i j)[k]?).map f = (objs[k]?).map f)
    (fuel : Nat) :
    ∀ (objs : List Object) (i k : Nat),
      ((pairLoopOuter step objs i fuel)[k]?).map f = (objs[k]?).map f := by
  induction fuel with
  | zero => intro objs i k; rfl
  | succ n ih =>
      intro objs i k
      unfold pairLoopOuter
      by_cases hi : i < objs.length
      · rw [if_pos hi, ih, pairLoopInner_map f step hstep]
      · rw [if_neg hi]

/- ### C4: collision resolution -/

/-- C4: at every resolution event of the collision pass, the body with the
larger mass survives and the other is merely deactivated (on exact mass
equality the first body of the pair survives); the explicit `List.set`
equations show the survivor's entry — and every field of the absorbed body
other than its activity flag — is untouched.  In addition, the whole
collision pass leaves every body's position, velocity and mass unchanged. -/
theorem collision_absorption_larger_mass_survives :
    (∀ (objs : List Object) (i j : Nat) (o1 o2 : Object),
      objs[i]? = some o1 → objs[j]? = some o2 → o1.isCollidingWith o2 →
      (o2.mass ≤ o1.mass →
        resolveCollision objs i j = objs.set j (o2.setActive false)) ∧
      (o1.mass < o2.mass →
        resolveCollision objs i j = objs.set i (o1.setActive false))) ∧
    (∀ (p : Physics) (k : Nat),
      (p.handleCollisions.objects[k]?).map Object.kinematicState =
        (p.objects[k]?).map Object.kinematicState) := by
  constructor
  · intro objs i j o1 o2 h1 h2 hc
    constructor
    · intro hm
      simp only [resolveCollision, h1, h2]
      rw [if_pos hc, if_pos hm]
    · intro hm
      simp only [resolveCollision, h1, h2]
      rw [if_pos hc, if_neg (not_le.mpr hm)]
  · intro p k
    show ((pairLoopOuter resolveCollision p.objects 0 p.objects.length)[k]?).map
        Object.kinematicState = (p.objects[k]?).map Object.kinematicState
    exact pairLoopOuter_map Object.kinematicState resolveCollision
      (fun objs i j k => resolveCollision_kinematic objs i j k)
      p.objects.length p.objects 0 k

/-- C4 witness: a heavier body at the origin absorbs the overlapping unit
body; only the latter's activity flag changes. -/
theorem collision_absorption_larger_mass_survives_witness :
    resolveCollision [sampleHeavy, sampleBody] 0 1 =
      [sampleHeavy, sampleBody].set 1 (sampleBody.setActive false) :=
  ((collision_absorption_larger_mass_survives.1 [sampleHeavy, sampleBody] 0 1
      sampleHeavy sampleBody rfl rfl
      (by
        refine ⟨rfl, rfl, ?_⟩
        show Vec3.length (sampleBody.position - sampleHeavy.position) ≤
          sampleHeavy.radius + sampleBody.radius
        have : sampleBody.position - sampleHeavy.position = 0 := by
          ext <;> simp [sampleBody, sampleHeavy]
        rw [this, Vec3.length_zero]
        norm_num [sampleBody, sampleHeavy])).1
    (by norm_num [sampleBody, sampleHeavy]))

/- ### C9: Newton's third law in the force-accumulation pass -/

theorem pairForce_antisymm (G : ℝ) (o1 o2 : Object) :
    pairForce G o2 o1 = -(pairForce G o1 o2) := by
  simp only [pairForce]
  have hd : o1.position - o2.position = -(o2.position - o1.position) := by
    ext <;> simp
  rw [hd, Vec3.length_neg]
  by_cases h : 0 < (o2.position - o1.position).length
  · rw [if_pos h, if_pos h, Vec3.normalize_neg, Vec3.smul_neg]
    have hm : G * o1.mass * o2.mass = G * o2.mass * o1.mass := by ring
    rw [hm]
  · rw [if_neg h, if_neg h, Vec3.neg_zero]

/-- C9: in the force-accumulation pass, every visited pair `(i, j)` of
active bodies at positive separation has the pair force added to the first
body's force accumulator and its exact negation added to the second's;
the pair force is antisymmetric under swapping the bodies, and pairs at
zero separation contribute no force to either body (the collection is left
untouched). -/
theorem newton_third_law_pass :
    (∀ (G : ℝ) (o1 o2 : Object), pairForce G o2 o1 = -(pairForce G o1 o2)) ∧
    (∀ (G : ℝ) (o1 o2 : Object),
      (o2.position - o1.position).length = 0 → pairForce G o1 o2 = 0) ∧
    (∀ (G : ℝ) (objs : List Object) (i j : Nat) (o1 o2 : Object),
      i ≠ j → objs[i]? = some o1 → objs[j]? = some o2 →
      o1.active = true → o2.active = true →
      (0 < (o2.position - o1.position).length →
        ((forcePairStep G objs i j)[i]?).map Object.forceSum =
          some (o1.forceSum + pairForce G o1 o2) ∧
        ((forcePairStep G objs i j)[j]?).map Object.forceSum =
          some (o2.forceSum + -(pairForce G o1 o2))) ∧
      ((o2.position - o1.position).length = 0 →
        forcePairStep G objs i j = objs)) := by
  refine ⟨pairForce_antisymm, ?_, ?_⟩
  · intro G o1 o2 h0
    simp only [pairForce]
    rw [if_neg (by rw [h0]; exact lt_irrefl 0)]
  · intro G objs i j o1 o2 hij h1 h2 ha1 ha2
    constructor
    · intro hd
      obtain ⟨hi, -⟩ := List.getElem?_eq_some.mp h1
      obtain ⟨hj, -⟩ := List.getElem?_eq_some.mp h2
      simp only [forcePairStep, h1, h2]
      rw [if_pos ⟨ha1, ha2, hd⟩]
      constructor
      · rw [List.getElem?_set_ne (Ne.symm hij), List.getElem?_set_self hi]
        rfl
      · rw [List.getElem?_set_self (by rw [List.length_set]; exact hj)]
        rfl
    · intro h0
      simp only [forcePairStep, h1, h2]
      rw [if_neg (fun hcon => absurd hcon.2.2 (by rw [h0]; exact lt_irrefl 0))]

/-- C9 witness: two active unit-mass bodies one meter apart on the x axis
receive opposite force contributions. -/
theorem newton_third_law_pass_witness :
    ((forcePairStep 1 [sampleBody, sampleBody2] 0 1)[0]?).map Object.forceSum =
      some (sampleBody.forceSum + pairForce 1 sampleBody sampleBody2) := by
  have hd : 0 < (sampleBody2.position - sampleBody.position).length := by
    have hv : sampleBody2.position - sampleBody.position = ⟨1, 0, 0⟩ := by
      ext <;> simp [sampleBody, sampleBody2]
    rw [hv]
    unfold Vec3.length
    have h1 : ((1 : ℝ) ^ 2 + 0 ^ 2 + 0 ^ 2) = 1 := by norm_num
    rw [h1, Real.sqrt_one]
    norm_num
  exact ((newton_third_law_pass.2.2 1 [sampleBody, sampleBody2] 0 1
      sampleBody sampleBody2 (by decide) rfl rfl rfl rfl).1 hd).1

/- ### C3: clamped central gravitational acceleration -/

theorem Vec3.length_normalize (v : Vec3) (h : 0 < v.length) :
    v.normalize.length = 1 := by
  unfold Vec3.normalize
  rw [Vec3.length_smul, abs_of_nonneg (by positivity)]
  field_simp

/-- C3: for every point, the black hole's gravitational acceleration is the
zero vector whenever the distance r from the black hole's position is below
one tenth of the Schwarzschild radius, and otherwise has magnitude
`G·m / r²` and points toward the black hole's position (a nonnegative
multiple of the vector from the point to the center). -/
theorem gravitationalAcceleration_clamp_and_magnitude
    (position : Vec3) (mass : ℝ) (name : String) (hm : 0 < mass)
    (point : Vec3) :
    (Vec3.length (point - position) <
        (mkBlackHole position mass name).schwarzschildRadius * 0.1 →
      (mkBlackHole position mass name).getGravitationalAcceleration point = 0) ∧
    (¬ Vec3.length (point - position) <
        (mkBlackHole position mass name).schwarzschildRadius * 0.1 →
      Vec3.length ((mkBlackHole position mass name).getGravitationalAcceleration point) =
        BlackHole.G * mass /
          (Vec3.length (point - position) * Vec3.length (point - position)) ∧
      ∃ k : ℝ, 0 ≤ k ∧
        (mkBlackHole position mass name).getGravitationalAcceleration point =
          k • (position - point)) := by
  have hG : (0 : ℝ) < BlackHole.G := by unfold BlackHole.G; norm_num
  have hc2 : (0 : ℝ) < BlackHole.c * BlackHole.c := by unfold BlackHole.c; norm_num
  have hrs : (mkBlackHole position mass name).schwarzschildRadius =
      2 * BlackHole.G * mass / (BlackHole.c * BlackHole.c) := rfl
  have hrspos : 0 < (mkBlackHole position mass name).schwarzschildRadius := by
    rw [hrs]
    exact div_pos (by nlinarith) hc2
  have hpp : (mkBlackHole position mass name).position = position := rfl
  have hmm : (mkBlackHole position mass name).mass = mass := rfl
  constructor
  · intro h
    simp only [BlackHole.getGravitationalAcceleration, hpp, hmm]
    rw [if_pos h]
  · intro h
    have hr : 0 < Vec3.length (point - position) :=
      lt_of_lt_of_le (by nlinarith) (not_lt.mp h)
    have hmag : 0 < BlackHole.G * mass /
        (Vec3.length (point - position) * Vec3.length (point - position)) :=
      div_pos (by nlinarith) (by nlinarith)
    constructor
    · simp only [BlackHole.getGravitationalAcceleration, hpp, hmm]
      rw [if_neg h, Vec3.length_smul, Vec3.length_neg,
        Vec3.length_normalize _ hr, mul_one, abs_of_nonneg (le_of_lt hmag)]
    · refine ⟨BlackHole.G * mass /
        (Vec3.length (point - position) * Vec3.length (point - position)) *
          (1 / Vec3.length (point - position)), ?_, ?_⟩
      · positivity
      · simp only [BlackHole.getGravitationalAcceleration, hpp, hmm]
        rw [if_neg h]
        ext <;> simp [Vec3.normalize] <;> ring

/-- C3 witness: a point sitting exactly on the black hole's position is
inside the clamp radius and receives zero acceleration. -/
theorem gravitationalAcceleration_clamp_and_magnitude_witness :
    (mkBlackHole 0 1 "Sgr").getGravitationalAcceleration 0 = 0 := by
  apply (gravitationalAcceleration_clamp_and_magnitude 0 1 "Sgr"
    (by norm_num) 0).1
  simp only [Vec3.sub_self, Vec3.length_zero]
  show (0 : ℝ) < 2 * BlackHole.G * 1 / (BlackHole.c * BlackHole.c) * 0.1
  unfold BlackHole.G BlackHole.c
  norm_num

/- ### C8: metric coefficient and time dilation -/

/-- C8: the metric coefficient vanishes at and inside the horizon, equals
`1 - Rs/r` outside it, is strictly increasing there and tends to 1 at
infinity; the time-dilation factor is the square root of the coefficient
when it is positive and 0 otherwise. -/
theorem metric_and_timeDilation_spec (bh : BlackHole)
    (h : 0 < bh.schwarzschildRadius) :
    (∀ r, r ≤ bh.schwarzschildRadius → bh.getMetricCoefficient r = 0) ∧
    (∀ r, bh.schwarzschildRadius < r →
      bh.getMetricCoefficient r = 1 - bh.schwarzschildRadius / r) ∧
    StrictMonoOn bh.getMetricCoefficient (Set.Ioi bh.schwarzschildRadius) ∧
    Filter.Tendsto bh.getMetricCoefficient Filter.atTop (nhds 1) ∧
    (∀ r, 0 < bh.getMetricCoefficient r →
      bh.getTimeDilationFactor r = Real.sqrt (bh.getMetricCoefficient r)) ∧
    (∀ r, bh.getMetricCoefficient r ≤ 0 → bh.getTimeDilationFactor r = 0) := by
  have e0 : ∀ r, r ≤ bh.schwarzschildRadius → bh.getMetricCoefficient r = 0 := by
    intro r hr
    unfold BlackHole.getMetricCoefficient
    rw [if_pos hr]
  have e1 : ∀ r, bh.schwarzschildRadius < r →
      bh.getMetricCoefficient r = 1 - bh.schwarzschildRadius / r := by
    intro r hr
    unfold BlackHole.getMetricCoefficient
    rw [if_neg (not_le.mpr hr)]
  refine ⟨e0, e1, ?_, ?_, ?_, ?_⟩
  · intro a ha b hb hab
    rw [Set.mem_Ioi] at ha hb
    rw [e1 a ha, e1 b hb]
    have hdiv : bh.schwarzschildRadius / b < bh.schwarzschildRadius / a :=
      div_lt_div_of_pos_left h (h.trans ha) hab
    linarith
  · have heq : bh.getMetricCoefficient =ᶠ[Filter.atTop]
        fun r => 1 - bh.schwarzschildRadius / r := by
      filter_upwards [Filter.eventually_gt_atTop bh.schwarzschildRadius] with r hr
      exact e1 r hr
    have hlim : Filter.Tendsto (fun r : ℝ => 1 - bh.schwarzschildRadius / r)
        Filter.atTop (nhds 1) := by
      have hd : Filter.Tendsto (fun r : ℝ => bh.schwarzschildRadius / r)
          Filter.atTop (nhds 0) :=
        Filter.Tendsto.div_atTop tendsto_const_nhds Filter.tendsto_id
      have := Filter.Tendsto.sub (tendsto_const_nhds
        (x := (1 : ℝ)) (f := Filter.atTop)) hd
      rw [sub_zero] at this
      exact this
    exact Filter.Tendsto.congr' heq.symm hlim
  · intro r hpos
    unfold BlackHole.getTimeDilationFactor
    rw [if_neg (not_le.mpr hpos)]
  · intro r hnp
    unfold BlackHole.getTimeDilationFactor
    rw [if_pos hnp]

/-- C8 witness: the sample black hole has a positive Schwarzschild radius
and its metric coefficient vanishes at radius 0. -/
theorem metric_and_timeDilation_spec_witness :
    sampleBlackHole.getMetricCoefficient 0 = 0 := by
  have h : 0 < sampleBlackHole.schwarzschildRadius := by
    show (0 : ℝ) < 2 * BlackHole.G * 1 / (BlackHole.c * BlackHole.c)
    unfold BlackHole.G BlackHole.c
    norm_num
  exact (metric_and_timeDilation_spec sampleBlackHole h).1 0 (le_of_lt h)

/- ### C1: horizon removal and its gating on the gravity flag -/

theorem Physics.integrateMotion_eq (p : Physics) (deltaTime : ℝ) :
    p.integrateMotion deltaTime = p := by
  unfold Physics.integrateMotion Physics.integrateEuler Physics.integrateLeapfrog
    Physics.integrateRK4
  split <;> rfl

theorem Physics.gravityPass_blackHole (p : Physics) (deltaTime : ℝ) :
    (p.gravityPass deltaTime).blackHole = p.blackHole := by
  unfold Physics.gravityPass
  rw [Physics.integrateMotion_eq]
  rfl

theorem update_objects_gravity_off (p : Physics) (deltaTime : ℝ)
    (hg : p.gravityEnabled = false) (hdt : 0 < deltaTime) :
    (p.update deltaTime).objects =
      p.objects.map (fun o => o.updatePhysics deltaTime) := by
  simp [Physics.update, hg, not_le.mpr hdt]

theorem update_objects_gravity_on (p : Physics) (deltaTime : ℝ)
    (hg : p.gravityEnabled = true) (hdt : 0 < deltaTime) :
    (p.update deltaTime).objects =
      (removeSwallowedLoop p.blackHole
        (({ p with simulationTime := p.simulationTime + deltaTime,
                   stepCount := p.stepCount + 1 }.gravityPass
            deltaTime).objects)).map
        (fun o => o.updatePhysics deltaTime) := by
  simp [Physics.update, hg, not_le.mpr hdt, Physics.removeSwallowedObjects]
  rw [Physics.gravityPass_blackHole]

/-- C1 counterexample: with gravity disabled, a step does not remove a body
sitting inside the event horizon — after `update` the collection still
holds one body and that body's position still satisfies the horizon
predicate, contradicting removal on every step independent of the gravity
flag. -/
theorem horizon_removal_skipped_when_gravity_off :
    sampleSim.gravityEnabled = false ∧
    sampleSim.blackHole.isInsideEventHorizon (0 : Vec3) ∧
    (sampleSim.update 1).objects.length = 1 ∧
    ((sampleSim.update 1).objects[0]?).map Object.position = some 0 := by
  have hin : sampleSim.blackHole.isInsideEventHorizon (0 : Vec3) := by
    show Vec3.length ((0 : Vec3) - sampleBlackHole.position) ≤
      sampleBlackHole.schwarzschildRadius
    have hz : (0 : Vec3) - sampleBlackHole.position = 0 := by
      ext <;> simp [sampleBlackHole, mkBlackHole, BlackHole.updateSchwarzschildRadius]
    rw [hz, Vec3.length_zero]
    show (0 : ℝ) ≤ 2 * BlackHole.G * 1 / (BlackHole.c * BlackHole.c)
    unfold BlackHole.G BlackHole.c
    norm_num
  have hobj : (sampleSim.update 1).objects = [sampleBody.updatePhysics 1] := by
    rw [update_objects_gravity_off sampleSim 1 rfl (by norm_num)]
    rfl
  have hpos : (sampleBody.updatePhysics 1).position = 0 := by
    simp only [Object.updatePhysics]
    rw [if_neg (by simp [sampleBody] : ¬ (sampleBody.active = false ∨ (1 : ℝ) ≤ 0))]
    show sampleBody.position + (1 : ℝ) • (sampleBody.velocity + (1 : ℝ) •
      (if 0 < sampleBody.mass then (1 / sampleBody.mass) • sampleBody.forceSum
       else 0)) = 0
    rw [if_pos (by norm_num [sampleBody] : (0 : ℝ) < sampleBody.mass)]
    ext <;> simp [sampleBody]
  refine ⟨rfl, hin, ?_, ?_⟩
  · rw [hobj]
    rfl
  · rw [hobj]
    show some (sampleBody.updatePhysics 1).position = some 0
    rw [hpos]

/-- C1 (amended): the removal pass keeps exactly the active bodies outside
the event horizon (removing swallowed and deactivated bodies), but it runs
only on steps where the gravity flag is enabled: with gravity disabled a
step merely advances every body, performing no removal, and with gravity
enabled the collection after the step is the removal pass's result
advanced body by body. -/
theorem horizon_removal_gated_by_gravity :
    (∀ (bh : BlackHole) (objs : List Object) (o : Object),
      o ∈ removeSwallowedLoop bh objs ↔
        o ∈ objs ∧ o.active = true ∧ ¬ bh.isInsideEventHorizon o.position) ∧
    (∀ (p : Physics) (deltaTime : ℝ),
      p.gravityEnabled = false → 0 < deltaTime →
      (p.update deltaTime).objects =
        p.objects.map (fun o => o.updatePhysics deltaTime)) ∧
    (∀ (p : Physics) (deltaTime : ℝ),
      p.gravityEnabled = true → 0 < deltaTime →
      (p.update deltaTime).objects =
        (removeSwallowedLoop p.blackHole
          (({ p with simulationTime := p.simulationTime + deltaTime,
                     stepCount := p.stepCount + 1 }.gravityPass
              deltaTime).objects)).map
          (fun o => o.updatePhysics deltaTime)) := by
  refine ⟨?_, ?_, ?_⟩
  · intro bh objs o
    induction objs with
    | nil => simp [removeSwallowedLoop]
    | cons o' rest ih =>
        by_cases h1 : o'.active = true ∧ bh.isInsideEventHorizon o'.position
        · rw [removeSwallowedLoop, if_pos h1, ih]
          constructor
          · rintro ⟨hm, hP⟩
            exact ⟨List.mem_cons_of_mem _ hm, hP⟩
          · rintro ⟨hm, hP⟩
            rcases List.mem_cons.mp hm with rfl | hm'
            · exact absurd h1.2 hP.2
            · exact ⟨hm', hP⟩
        · rw [removeSwallowedLoop, if_neg h1]
          by_cases h2 : o'.active = false
          · rw [if_pos h2, ih]
            constructor
            · rintro ⟨hm, hP⟩
              exact ⟨List.mem_cons_of_mem _ hm, hP⟩
            · rintro ⟨hm, hP⟩
              rcases List.mem_cons.mp hm with rfl | hm'
              · rw [h2] at hP
                exact absurd hP.1 (by decide)
              · exact ⟨hm', hP⟩
          · rw [if_neg h2]
            have hact : o'.active = true := eq_true_of_ne_false h2
            have hout : ¬ bh.isInsideEventHorizon o'.position := fun hc =>
              h1 ⟨hact, hc⟩
            simp only [List.mem_cons, ih]
            constructor
            · rintro (rfl | ⟨hm, hP⟩)
              · exact ⟨Or.inl rfl, hact, hout⟩
              · exact ⟨Or.inr hm, hP⟩
            · rintro ⟨rfl | hm, hP⟩
              · exact Or.inl rfl
              · exact Or.inr ⟨hm, hP⟩
  · intro p deltaTime hg hdt
    exact update_objects_gravity_off p deltaTime hg hdt
  · intro p deltaTime hg hdt
    exact update_objects_gravity_on p deltaTime hg hdt

/-- C1 amended-claim witness: instantiated on the sample state with gravity
disabled and a unit time step. -/
theorem horizon_removal_gated_by_gravity_witness :
    (sampleSim.update 1).objects =
      sampleSim.objects.map (fun o => o.updatePhysics 1) :=
  horizon_removal_gated_by_gravity.2.1 sampleSim 1 rfl (by norm_num)
